import Mathlib

/-!
Shallow embedding of the Storm SaaS backend's entitlement/metering core:
the subscription ledger and webhook handlers of
`app/routers/subscriptions.py` and the API-key registry and usage
endpoints of `app/routers/dashboard.py`, over the data model of
`app/models.py`.  The database session is modelled as explicit lists of
rows; `datetime.utcnow()` is modelled as an explicit `now : Int`
parameter (seconds); `query(...).filter(...).first()` is `List.find?`,
and the in-place mutation of the first matching row is `updateFirst`.
-/

namespace Storm

/-- `SubscriptionPlan` enum from `app/models.py`. -/
inductive SubscriptionPlan where
  | FREE
  | BASIC
  | PREMIUM
  | ENTERPRISE
deriving DecidableEq, BEq, Repr

/-- `SubscriptionStatus` enum from `app/models.py`. -/
inductive SubscriptionStatus where
  | ACTIVE
  | INACTIVE
  | CANCELLED
  | PAST_DUE
deriving DecidableEq, BEq, Repr

/-- The `subscriptions` table row (`app/models.py`), restricted to the
columns the routers read or write (`id`, `created_at`, `updated_at` are
never consulted by the handlers under study). -/
structure Subscription where
  user_id : Nat
  plan : SubscriptionPlan
  status : SubscriptionStatus
  stripe_customer_id : Option String
  stripe_subscription_id : Option String
  current_period_start : Option Int
  current_period_end : Option Int
deriving DecidableEq, Repr

/-- An error raised with `HTTPException(status_code, detail)`. -/
inductive HandlerError where
  | NotFound (detail : String)
  | BadRequest (detail : String)
deriving DecidableEq, Repr

/-- The HTTP status code carried by a raised `HTTPException`. -/
def HandlerError.statusCode : HandlerError → Nat
  | .NotFound _ => 404
  | .BadRequest _ => 400

/-- SQLAlchemy mutates the row returned by `.first()` in place and
`commit`s; on the list model this is: replace the first row satisfying
`p` by its image under `f`, leaving everything else untouched. -/
def updateFirst {α : Type} (p : α → Bool) (f : α → α) : List α → List α
  | [] => []
  | a :: rest => if p a then f a :: rest else a :: updateFirst p f rest

/-- `POST /cancel` (`cancel_subscription`, subscriptions.py:147-187):
404 if the user has no subscription row, 400 if the plan is FREE,
otherwise sets status=CANCELLED on the row and returns the success
message.  (The outbound `stripe.Subscription.modify` call is external
I/O and is not part of the ledger state.)  NOTE: the code does not
check whether the status is already CANCELLED. -/
def cancel_subscription (user_id : Nat) (db : List Subscription) :
    Except HandlerError (List Subscription × String) :=
  match db.find? (fun s => s.user_id == user_id) with
  | none => .error (.NotFound "No subscription found")
  | some sub =>
    if sub.plan = SubscriptionPlan.FREE then
      .error (.BadRequest "Cannot cancel free plan")
    else
      .ok (updateFirst (fun s => s.user_id == user_id)
            (fun s => { s with status := SubscriptionStatus.CANCELLED }) db,
          "Subscription cancelled successfully")

/-- `POST /reactivate` (`reactivate_subscription`, subscriptions.py:189-229):
404 if no subscription row, 400 unless status is CANCELLED, otherwise
sets status=ACTIVE. -/
def reactivate_subscription (user_id : Nat) (db : List Subscription) :
    Except HandlerError (List Subscription × String) :=
  match db.find? (fun s => s.user_id == user_id) with
  | none => .error (.NotFound "No subscription found")
  | some sub =>
    if sub.status ≠ SubscriptionStatus.CANCELLED then
      .error (.BadRequest "Subscription is not cancelled")
    else
      .ok (updateFirst (fun s => s.user_id == user_id)
            (fun s => { s with status := SubscriptionStatus.ACTIVE }) db,
          "Subscription reactivated successfully")

/-- The decoded Stripe event, by `event['type']`, carrying exactly the
fields each handler reads. -/
inductive StripeEvent where
  | checkout_completed (user_id : Nat) (plan : SubscriptionPlan)
      (subscription_id : String)
  | invoice_payment_succeeded (subscription_id : String)
      (period_start period_end : Int)
  | invoice_payment_failed (subscription_id : String)
  | other (kind : String)
deriving DecidableEq, Repr

/-- The outcome of `stripe.Webhook.construct_event` (external signature
verification / payload parsing): either a decoded event, a `ValueError`
(malformed payload), or a `SignatureVerificationError`. -/
inductive ConstructEventResult where
  | ok (e : StripeEvent)
  | invalidPayload
  | invalidSignature
deriving DecidableEq, Repr

/-- `handle_successful_payment` (subscriptions.py:303-318): look up the
subscription by `metadata.user_id`; if present, set plan from the
event, status=ACTIVE, `stripe_subscription_id` from the event, and the
period to `[utcnow, utcnow + 30 days]` (30 days = 2592000 s). -/
def handle_successful_payment (user_id : Nat) (plan : SubscriptionPlan)
    (session_subscription : String) (now : Int) (db : List Subscription) :
    List Subscription :=
  match db.find? (fun s => s.user_id == user_id) with
  | none => db
  | some _ =>
    updateFirst (fun s => s.user_id == user_id)
      (fun s => { s with
        plan := plan,
        status := SubscriptionStatus.ACTIVE,
        stripe_subscription_id := some session_subscription,
        current_period_start := some now,
        current_period_end := some (now + 30 * 86400) }) db

/-- `handle_successful_payment_renewal` (subscriptions.py:320-332): look
up by `invoice['subscription']` (the external subscription id, not the
user id); if present, set status=ACTIVE and the period bounds from the
invoice. -/
def handle_successful_payment_renewal (subscription_id : String)
    (period_start period_end : Int) (db : List Subscription) :
    List Subscription :=
  match db.find? (fun s => s.stripe_subscription_id == some subscription_id) with
  | none => db
  | some _ =>
    updateFirst (fun s => s.stripe_subscription_id == some subscription_id)
      (fun s => { s with
        status := SubscriptionStatus.ACTIVE,
        current_period_start := some period_start,
        current_period_end := some period_end }) db

/-- `handle_failed_payment` (subscriptions.py:334-344): look up by the
external subscription id; if present, set status=PAST_DUE. -/
def handle_failed_payment (subscription_id : String)
    (db : List Subscription) : List Subscription :=
  match db.find? (fun s => s.stripe_subscription_id == some subscription_id) with
  | none => db
  | some _ =>
    updateFirst (fun s => s.stripe_subscription_id == some subscription_id)
      (fun s => { s with status := SubscriptionStatus.PAST_DUE }) db

/-- `POST /webhook` (`stripe_webhook`, subscriptions.py:272-301): reject
with 400 on a parse or signature failure from `construct_event`
(raised before any database access), otherwise dispatch on the event
type; any unrecognised type falls through to `return {"status":
"success"}`.  Returns the HTTP outcome together with the resulting
database state. -/
def stripe_webhook (cer : ConstructEventResult) (now : Int)
    (db : List Subscription) :
    Except HandlerError String × List Subscription :=
  match cer with
  | .invalidPayload => (.error (.BadRequest "Invalid payload"), db)
  | .invalidSignature => (.error (.BadRequest "Invalid signature"), db)
  | .ok e =>
    match e with
    | .checkout_completed uid plan sid =>
      (.ok "success", handle_successful_payment uid plan sid now db)
    | .invoice_payment_succeeded sid ps pe =>
      (.ok "success", handle_successful_payment_renewal sid ps pe db)
    | .invoice_payment_failed sid =>
      (.ok "success", handle_failed_payment sid db)
    | .other _ => (.ok "success", db)

/-- The `api_keys` table row (`app/models.py`), restricted to the
columns the dashboard router reads or writes. -/
structure APIKey where
  id : Nat
  name : String
  key_hash : String
  user_id : Nat
  project_id : Option Nat
  is_active : Bool
deriving DecidableEq, Repr

/-- Request body of `POST /api-keys` (`APIKeyCreate`). -/
structure APIKeyCreate where
  name : String
  project_id : Option Nat
deriving DecidableEq, Repr

/-- Response of `POST /api-keys` (`APIKeyCreateResponse`): the stored
record's public fields plus the plaintext `api_key` (shown once) and a
preview built, at creation time, from the plaintext. -/
structure APIKeyCreateResponse where
  id : Nat
  name : String
  api_key : String
  key_preview : String
deriving DecidableEq, Repr

/-- One element of the `GET /api-keys` response (`APIKeyResponse`): no
plaintext field exists; `key_preview` is filled from the stored hash. -/
structure APIKeyListItem where
  id : Nat
  name : String
  is_active : Bool
  key_preview : String
deriving DecidableEq, Repr

/-- The active-key count query of dashboard.py:175-178:
`count(APIKey.id) where user_id = current_user.id and is_active`. -/
def activeKeyCount (user_id : Nat) (keys : List APIKey) : Nat :=
  (keys.filter (fun k => k.user_id == user_id && k.is_active)).length

/-- The `max_keys` dict of dashboard.py:181-186 (free=1, basic=3,
premium=10, enterprise=50); the plan key is always one of the four
enum members, so `.get(plan, 1)` never falls back to its default. -/
def max_keys : SubscriptionPlan → Nat
  | .FREE => 1
  | .BASIC => 3
  | .PREMIUM => 10
  | .ENTERPRISE => 50

/-- `str(plan)` value of each plan member, used in the quota error
detail. -/
def SubscriptionPlan.value : SubscriptionPlan → String
  | .FREE => "free"
  | .BASIC => "basic"
  | .PREMIUM => "premium"
  | .ENTERPRISE => "enterprise"

/-- `subscription.plan if subscription else "free"`
(dashboard.py:188). -/
def planOf (user_id : Nat) (subs : List Subscription) : SubscriptionPlan :=
  match subs.find? (fun s => s.user_id == user_id) with
  | none => SubscriptionPlan.FREE
  | some sub => sub.plan

/-- `POST /api-keys` (`create_api_key`, dashboard.py:163-216).  The
random `secrets.token_urlsafe(32)` draw is the explicit `token`
argument and SHA-256 hex digest is the abstract `sha256hex` argument
(the handlers never invert it); the fresh row id assigned by the
database is `new_id`.  Rejects with 400 when the user's active-key
count already meets the plan limit; otherwise persists a row holding
only the hash and returns the plaintext `sk_`-prefixed key, with a
creation-time preview of its first 8 characters. -/
def create_api_key (sha256hex : String → String) (key_data : APIKeyCreate)
    (token : String) (new_id : Nat) (user_id : Nat)
    (subs : List Subscription) (keys : List APIKey) :
    Except HandlerError (APIKeyCreateResponse × List APIKey) :=
  let plan := planOf user_id subs
  let current_key_count := activeKeyCount user_id keys
  if current_key_count ≥ max_keys plan then
    .error (.BadRequest
      ("Maximum API keys reached for " ++ plan.value ++ " plan"))
  else
    let api_key := "sk_" ++ token
    let key_hash := sha256hex api_key
    let db_api_key : APIKey :=
      { id := new_id, name := key_data.name, key_hash := key_hash,
        user_id := user_id, project_id := key_data.project_id,
        is_active := true }
    .ok ({ id := new_id, name := key_data.name, api_key := api_key,
           key_preview := api_key.take 8 ++ "..." },
         keys ++ [db_api_key])

/-- `DELETE /api-keys/{key_id}` (`delete_api_key`, dashboard.py:218-239):
404 unless a key with that id belongs to the caller; otherwise flips
`is_active` to false on the first matching row (soft delete). -/
def delete_api_key (key_id : Nat) (user_id : Nat) (keys : List APIKey) :
    Except HandlerError (String × List APIKey) :=
  match keys.find? (fun k => k.id == key_id && k.user_id == user_id) with
  | none => .error (.NotFound "API key not found")
  | some _ =>
    .ok ("API key deleted successfully",
      updateFirst (fun k => k.id == key_id && k.user_id == user_id)
        (fun k => { k with is_active := false }) keys)

/-- `GET /api-keys` (`get_user_api_keys`, dashboard.py:143-161): returns
the caller's keys with `key_preview = key_hash[:8] + "..."`; the
response schema has no plaintext field.  (The `ORDER BY created_at
DESC` is modelled as the stored list order.) -/
def get_user_api_keys (user_id : Nat) (keys : List APIKey) :
    List APIKeyListItem :=
  (keys.filter (fun k => k.user_id == user_id)).map
    (fun k => { id := k.id, name := k.name, is_active := k.is_active,
                key_preview := k.key_hash.take 8 ++ "..." })

/-- A wall-clock instant as the usage queries see it: the calendar
`year` and `month` (what SQL `extract` returns) plus `sub`, a single
number encoding the position within the month (day/time); instants are
ordered lexicographically by (year, month, sub). -/
structure DateTime where
  year : Nat
  month : Nat
  sub : Nat
deriving DecidableEq, BEq, Repr

/-- Lexicographic `≤` on instants. -/
def DateTime.leb (a b : DateTime) : Bool :=
  decide (a.year < b.year ∨ (a.year = b.year ∧
    (a.month < b.month ∨ (a.month = b.month ∧ a.sub ≤ b.sub))))

/-- Lexicographic `<` on instants. -/
def DateTime.ltb (a b : DateTime) : Bool :=
  decide (a.year < b.year ∨ (a.year = b.year ∧
    (a.month < b.month ∨ (a.month = b.month ∧ a.sub < b.sub))))

/-- The `usage` table row (`app/models.py`), restricted to the columns
the usage-count query reads. -/
structure Usage where
  id : Nat
  user_id : Nat
  timestamp : DateTime
deriving DecidableEq, Repr

/-- The month-usage query of subscriptions.py:254-258:
`count(Usage.id) where user_id = uid and extract(month, timestamp) = m
and extract(year, timestamp) = y`. -/
def usageCountMonth (user_id : Nat) (m y : Nat) (records : List Usage) : Nat :=
  (records.filter (fun r =>
    r.user_id == user_id && r.timestamp.month == m && r.timestamp.year == y)).length

/-- `limits.api_calls_per_month` of `SUBSCRIPTION_PLANS`
(subscriptions.py:21-49); `-1` is the unlimited sentinel. -/
def api_calls_per_month : SubscriptionPlan → Int
  | .FREE => 150
  | .BASIC => 1000
  | .PREMIUM => 10000
  | .ENTERPRISE => -1

/-- Body of the `GET /usage` response, restricted to the non-float
fields (the float `percentage_used` is not modelled). -/
structure UsageReport where
  current_usage : Nat
  limit : Int
  unlimited : Bool
  plan : SubscriptionPlan
  status : SubscriptionStatus
deriving DecidableEq, Repr

/-- `GET /usage` (`get_subscription_usage`, subscriptions.py:231-270):
404 if the user has no subscription row; otherwise reports the count
of the user's usage rows whose timestamp falls in the current calendar
month (`datetime.now()`'s month and year), with the plan limit. -/
def get_subscription_usage (user_id : Nat) (now : DateTime)
    (subs : List Subscription) (records : List Usage) :
    Except HandlerError UsageReport :=
  match subs.find? (fun s => s.user_id == user_id) with
  | none => .error (.NotFound "No subscription found")
  | some sub =>
    let usage_count := usageCountMonth user_id now.month now.year records
    let limit := api_calls_per_month sub.plan
    .ok { current_usage := usage_count, limit := limit,
          unlimited := limit = -1, plan := sub.plan, status := sub.status }

/-- `countInWindow` as the spec words it (§4.2, §8): the number of the
user's UsageRecords with timestamp in the half-open interval
`[start, stop)`.  This definition follows the spec's words; it is the
comparison point for C8, not a transcription of the code. -/
def spec_countInWindow (user_id : Nat) (start stop : DateTime)
    (records : List Usage) : Nat :=
  (records.filter (fun r =>
    r.user_id == user_id && DateTime.leb start r.timestamp &&
      DateTime.ltb r.timestamp stop)).length

/-- The first instant of `now`'s calendar month. -/
def monthStart (now : DateTime) : DateTime :=
  { year := now.year, month := now.month, sub := 0 }

/-- The first instant after `now`'s calendar month in the lexicographic
order: `⟨y, m+1, 0⟩` (a formal bound — for December it compares the
same as `⟨y+1, 1, 0⟩` against any timestamp with a valid month). -/
def nextMonthStart (now : DateTime) : DateTime :=
  { year := now.year, month := now.month + 1, sub := 0 }

/-! ## Helper lemmas -/

theorem updateFirst_of_find?_none {α : Type} (p : α → Bool) (f : α → α)
    (l : List α) (h : l.find? p = none) : updateFirst p f l = l := by
  induction l with
  | nil => rfl
  | cons a t ih =>
    rw [List.find?_cons] at h
    cases hpa : p a with
    | true => simp [hpa] at h
    | false =>
      simp only [hpa] at h
      simp [updateFirst, hpa, ih h]

theorem find?_updateFirst {α : Type} (p : α → Bool) (f : α → α)
    (l : List α) (x : α) (hf : l.find? p = some x) (hpf : p (f x) = true) :
    (updateFirst p f l).find? p = some (f x) := by
  induction l with
  | nil => simp [List.find?] at hf
  | cons a t ih =>
    rw [List.find?_cons] at hf
    cases hpa : p a with
    | true =>
      simp only [hpa] at hf
      injection hf with hf
      subst hf
      simp only [updateFirst, hpa, if_true, List.find?_cons, hpf]
    | false =>
      simp only [hpa] at hf
      simp only [updateFirst, hpa, Bool.false_eq_true, if_false,
        List.find?_cons]
      exact ih hf

theorem activeKeyCount_updateFirst_deactivate (uid kid : Nat)
    (keys : List APIKey) (k : APIKey)
    (hf : keys.find? (fun a => a.id == kid && a.user_id == uid) = some k)
    (hact : k.is_active = true) :
    activeKeyCount uid (updateFirst (fun a => a.id == kid && a.user_id == uid)
        (fun a => { a with is_active := false }) keys) + 1
      = activeKeyCount uid keys := by
  induction keys with
  | nil => simp [List.find?] at hf
  | cons a t ih =>
    rw [List.find?_cons] at hf
    cases hpa : (a.id == kid && a.user_id == uid) with
    | true =>
      simp only [hpa] at hf
      injection hf with hf
      subst hf
      have huid : a.user_id = uid := by
        have h2 := (Bool.and_eq_true _ _ |>.mp hpa).2
        simpa using h2
      simp only [updateFirst, hpa, if_true, activeKeyCount,
        List.filter_cons]
      simp [huid, hact]
    | false =>
      simp only [hpa] at hf
      simp only [updateFirst, hpa, Bool.false_eq_true, if_false,
        activeKeyCount, List.filter_cons]
      have htail := ih hf
      simp only [activeKeyCount] at htail
      cases hqa : (a.user_id == uid && a.is_active) with
      | true => simp only [hqa, if_true, List.length_cons]; omega
      | false => simpa only [hqa] using htail

/-! ## Claims -/

/-- C6: a webhook request whose payload cannot be parsed or whose
signature fails verification is rejected with HTTP 400 (Invalid
payload / Invalid signature), and the subscription state is returned
exactly as it was: no mutation happens on either error path. -/
theorem c6_webhook_errors_reject_without_mutation (now : Int)
    (db : List Subscription) :
    stripe_webhook ConstructEventResult.invalidPayload now db
        = (.error (.BadRequest "Invalid payload"), db)
      ∧ stripe_webhook ConstructEventResult.invalidSignature now db
        = (.error (.BadRequest "Invalid signature"), db)
      ∧ (HandlerError.BadRequest "Invalid payload").statusCode = 400
      ∧ (HandlerError.BadRequest "Invalid signature").statusCode = 400 :=
  ⟨rfl, rfl, rfl, rfl⟩

/-- C9: a webhook event of any kind other than
checkout.session.completed, invoice.payment_succeeded and
invoice.payment_failed is accepted (the handler returns success, not
an error) and the subscription state is unchanged. -/
theorem c9_unknown_event_accepted_and_ignored (kind : String) (now : Int)
    (db : List Subscription) :
    stripe_webhook (ConstructEventResult.ok (StripeEvent.other kind)) now db
      = (.ok "success", db) :=
  rfl

/-- Initial ledger for the C1 failing input: user 1 on the free plan. -/
def c1_db0 : List Subscription :=
  [{ user_id := 1, plan := SubscriptionPlan.FREE,
     status := SubscriptionStatus.ACTIVE, stripe_customer_id := none,
     stripe_subscription_id := none, current_period_start := none,
     current_period_end := none }]

/-- The C1 failing event: checkout.session.completed for user 1. -/
def c1_event : StripeEvent :=
  StripeEvent.checkout_completed 1 SubscriptionPlan.BASIC "sub_1"

/-- C1 (code bug): the webhook pipeline keeps no record of processed
event ids, and `handle_successful_payment` stamps the period from the
current clock, so redelivering the same checkout_completed event one
day later (at t = 86400 s instead of t = 0) moves the billing period
from [0, 2592000] to [86400, 2678400] — the period end is extended by
a day, where the claim requires the second application to change
nothing. -/
theorem c1_redelivery_extends_period :
    (stripe_webhook (ConstructEventResult.ok c1_event) 0 c1_db0).2
      = [{ user_id := 1, plan := SubscriptionPlan.BASIC,
           status := SubscriptionStatus.ACTIVE, stripe_customer_id := none,
           stripe_subscription_id := some "sub_1",
           current_period_start := some 0,
           current_period_end := some 2592000 }]
    ∧ (stripe_webhook (ConstructEventResult.ok c1_event) 86400
        ((stripe_webhook (ConstructEventResult.ok c1_event) 0 c1_db0).2)).2
      = [{ user_id := 1, plan := SubscriptionPlan.BASIC,
           status := SubscriptionStatus.ACTIVE, stripe_customer_id := none,
           stripe_subscription_id := some "sub_1",
           current_period_start := some 86400,
           current_period_end := some 2678400 }]
    ∧ (stripe_webhook (ConstructEventResult.ok c1_event) 86400
        ((stripe_webhook (ConstructEventResult.ok c1_event) 0 c1_db0).2)).2
      ≠ (stripe_webhook (ConstructEventResult.ok c1_event) 0 c1_db0).2 := by
  refine ⟨rfl, rfl, ?_⟩
  decide

/-- Ledger for the C2 counterexample: user 1 holds a BASIC subscription
that is already CANCELLED. -/
def c2_db : List Subscription :=
  [{ user_id := 1, plan := SubscriptionPlan.BASIC,
     status := SubscriptionStatus.CANCELLED, stripe_customer_id := none,
     stripe_subscription_id := some "sub_1", current_period_start := none,
     current_period_end := none }]

/-- C2 counterexample: cancelling an already-CANCELLED BASIC
subscription does not fail with InvalidTransition — the handler only
checks the plan, so the request succeeds (a no-op re-cancel). -/
theorem c2_cancel_already_cancelled_succeeds :
    cancel_subscription 1 c2_db
      = .ok (c2_db, "Subscription cancelled successfully") :=
  rfl

/-- C2 (amended): for a user holding a subscription row, cancel fails
with InvalidTransition (400) exactly when the plan is FREE — an
already-CANCELLED paid subscription may be "cancelled" again, a no-op
that leaves the status CANCELLED; a successful cancel sets only the
status of that row to CANCELLED; reactivate fails (400) unless the
status is CANCELLED and otherwise sets the status to ACTIVE; a failed
attempt returns an error and leaves the stored state untouched. -/
theorem c2_cancel_reactivate_transitions (uid : Nat)
    (subs : List Subscription) (sub : Subscription)
    (hf : subs.find? (fun s => s.user_id == uid) = some sub) :
    (sub.plan = SubscriptionPlan.FREE →
        cancel_subscription uid subs
          = .error (.BadRequest "Cannot cancel free plan"))
    ∧ (sub.plan ≠ SubscriptionPlan.FREE →
        cancel_subscription uid subs
          = .ok (updateFirst (fun s => s.user_id == uid)
                  (fun s => { s with status := SubscriptionStatus.CANCELLED })
                  subs,
                "Subscription cancelled successfully")
        ∧ (updateFirst (fun s => s.user_id == uid)
              (fun s => { s with status := SubscriptionStatus.CANCELLED })
              subs).find? (fun s => s.user_id == uid)
            = some { sub with status := SubscriptionStatus.CANCELLED })
    ∧ (sub.status ≠ SubscriptionStatus.CANCELLED →
        reactivate_subscription uid subs
          = .error (.BadRequest "Subscription is not cancelled"))
    ∧ (sub.status = SubscriptionStatus.CANCELLED →
        reactivate_subscription uid subs
          = .ok (updateFirst (fun s => s.user_id == uid)
                  (fun s => { s with status := SubscriptionStatus.ACTIVE })
                  subs,
                "Subscription reactivated successfully")
        ∧ (updateFirst (fun s => s.user_id == uid)
              (fun s => { s with status := SubscriptionStatus.ACTIVE })
              subs).find? (fun s => s.user_id == uid)
            = some { sub with status := SubscriptionStatus.ACTIVE }) := by
  have hp := List.find?_some hf
  refine ⟨?_, ?_, ?_, ?_⟩
  · intro hfree
    simp only [cancel_subscription, hf, hfree, if_true]
  · intro hpaid
    constructor
    · simp only [cancel_subscription, hf, if_neg hpaid]
    · exact find?_updateFirst _ _ _ _ hf (by simpa using hp)
  · intro hnc
    simp only [reactivate_subscription, hf, if_pos hnc]
  · intro hc
    constructor
    · simp only [reactivate_subscription, hf]
      rw [if_neg (by simp [hc])]
    · exact find?_updateFirst _ _ _ _ hf (by simpa using hp)

/-- Ledger used to witness C2: user 1 on an ACTIVE BASIC plan. -/
def c2w_subs : List Subscription :=
  [{ user_id := 1, plan := SubscriptionPlan.BASIC,
     status := SubscriptionStatus.ACTIVE, stripe_customer_id := none,
     stripe_subscription_id := some "sub_1", current_period_start := none,
     current_period_end := none }]

theorem c2_cancel_reactivate_transitions_witness :
    c2w_subs.find? (fun s => s.user_id == 1) = some (c2w_subs.get ⟨0, by decide⟩)
    ∧ ((c2w_subs.get ⟨0, by decide⟩).plan = SubscriptionPlan.FREE →
        cancel_subscription 1 c2w_subs
          = .error (.BadRequest "Cannot cancel free plan"))
    ∧ ((c2w_subs.get ⟨0, by decide⟩).plan ≠ SubscriptionPlan.FREE →
        cancel_subscription 1 c2w_subs
          = .ok (updateFirst (fun s => s.user_id == 1)
                  (fun s => { s with status := SubscriptionStatus.CANCELLED })
                  c2w_subs,
                "Subscription cancelled successfully")
        ∧ (updateFirst (fun s => s.user_id == 1)
              (fun s => { s with status := SubscriptionStatus.CANCELLED })
              c2w_subs).find? (fun s => s.user_id == 1)
            = some { c2w_subs.get ⟨0, by decide⟩ with
                     status := SubscriptionStatus.CANCELLED }) := by
  have h := c2_cancel_reactivate_transitions 1 c2w_subs
    (c2w_subs.get ⟨0, by decide⟩) rfl
  exact ⟨rfl, h.1, h.2.1⟩

/-- C4: a checkout.session.completed event whose metadata user has a
subscription row is accepted, and leaves that row with the plan taken
from the event, status ACTIVE, the external subscription id stored,
and the billing period equal to [now, now + 30 days]. -/
theorem c4_checkout_completed_sets_subscription (uid : Nat)
    (plan : SubscriptionPlan) (sid : String) (now : Int)
    (subs : List Subscription) (sub : Subscription)
    (hf : subs.find? (fun s => s.user_id == uid) = some sub) :
    (stripe_webhook (ConstructEventResult.ok
        (StripeEvent.checkout_completed uid plan sid)) now subs).1
      = .ok "success"
    ∧ (stripe_webhook (ConstructEventResult.ok
        (StripeEvent.checkout_completed uid plan sid)) now subs).2.find?
          (fun s => s.user_id == uid)
      = some { sub with
          plan := plan,
          status := SubscriptionStatus.ACTIVE,
          stripe_subscription_id := some sid,
          current_period_start := some now,
          current_period_end := some (now + 30 * 86400) } := by
  have hp := List.find?_some hf
  constructor
  · rfl
  · simp only [stripe_webhook, handle_successful_payment, hf]
    exact find?_updateFirst _ _ _ _ hf (by simpa using hp)

theorem c4_checkout_completed_sets_subscription_witness :
    c1_db0.find? (fun s => s.user_id == 1)
        = some (c1_db0.get ⟨0, by decide⟩)
    ∧ (stripe_webhook (ConstructEventResult.ok
        (StripeEvent.checkout_completed 1 SubscriptionPlan.PREMIUM "sub_9"))
        100 c1_db0).2.find? (fun s => s.user_id == 1)
      = some { c1_db0.get ⟨0, by decide⟩ with
          plan := SubscriptionPlan.PREMIUM,
          status := SubscriptionStatus.ACTIVE,
          stripe_subscription_id := some "sub_9",
          current_period_start := some 100,
          current_period_end := some (100 + 30 * 86400) } :=
  ⟨rfl, (c4_checkout_completed_sets_subscription 1 SubscriptionPlan.PREMIUM
      "sub_9" 100 c1_db0 (c1_db0.get ⟨0, by decide⟩) rfl).2⟩

/-- C5: for a subscription row matching the event's external
subscription id, invoice.payment_failed is accepted and sets the
status (of the row found by that external id, not by user id) to
PAST_DUE; a subsequent invoice.payment_succeeded for the same external
id is accepted and sets the status back to ACTIVE with the period
bounds taken from the event. -/
theorem c5_invoice_failed_then_succeeded (sid : String)
    (ps pe now1 now2 : Int) (subs : List Subscription) (sub : Subscription)
    (hf : subs.find? (fun s => s.stripe_subscription_id == some sid)
        = some sub) :
    (stripe_webhook (ConstructEventResult.ok
        (StripeEvent.invoice_payment_failed sid)) now1 subs).1
      = .ok "success"
    ∧ (stripe_webhook (ConstructEventResult.ok
        (StripeEvent.invoice_payment_failed sid)) now1 subs).2.find?
          (fun s => s.stripe_subscription_id == some sid)
      = some { sub with status := SubscriptionStatus.PAST_DUE }
    ∧ (stripe_webhook (ConstructEventResult.ok
        (StripeEvent.invoice_payment_succeeded sid ps pe)) now2
        (stripe_webhook (ConstructEventResult.ok
          (StripeEvent.invoice_payment_failed sid)) now1 subs).2).1
      = .ok "success"
    ∧ (stripe_webhook (ConstructEventResult.ok
        (StripeEvent.invoice_payment_succeeded sid ps pe)) now2
        (stripe_webhook (ConstructEventResult.ok
          (StripeEvent.invoice_payment_failed sid)) now1 subs).2).2.find?
          (fun s => s.stripe_subscription_id == some sid)
      = some { sub with
          status := SubscriptionStatus.ACTIVE,
          current_period_start := some ps,
          current_period_end := some pe } := by
  have hp := List.find?_some hf
  have h1 : (stripe_webhook (ConstructEventResult.ok
      (StripeEvent.invoice_payment_failed sid)) now1 subs).2.find?
        (fun s => s.stripe_subscription_id == some sid)
      = some { sub with status := SubscriptionStatus.PAST_DUE } := by
    simp only [stripe_webhook, handle_failed_payment, hf]
    exact find?_updateFirst _ _ _ _ hf (by simpa using hp)
  have h1' : (handle_failed_payment sid subs).find?
      (fun s => s.stripe_subscription_id == some sid)
      = some { sub with status := SubscriptionStatus.PAST_DUE } := h1
  refine ⟨rfl, h1, rfl, ?_⟩
  show (handle_successful_payment_renewal sid ps pe
      (handle_failed_payment sid subs)).find?
      (fun s => s.stripe_subscription_id == some sid) = _
  simp only [handle_successful_payment_renewal, h1']
  have h2 := find?_updateFirst
    (fun s => s.stripe_subscription_id == some sid)
    (fun s : Subscription =>
      { s with status := SubscriptionStatus.ACTIVE,
               current_period_start := some ps,
               current_period_end := some pe })
    (handle_failed_payment sid subs)
    { sub with status := SubscriptionStatus.PAST_DUE }
    h1' (by simpa using hp)
  exact h2

/-- Ledger used to witness C5: user 1 ACTIVE on BASIC with external
subscription id "sub_1". -/
def c5w_subs : List Subscription :=
  [{ user_id := 1, plan := SubscriptionPlan.BASIC,
     status := SubscriptionStatus.ACTIVE, stripe_customer_id := none,
     stripe_subscription_id := some "sub_1",
     current_period_start := some 0, current_period_end := some 2592000 }]

theorem c5_invoice_failed_then_succeeded_witness :
    c5w_subs.find? (fun s => s.stripe_subscription_id == some "sub_1")
        = some (c5w_subs.get ⟨0, by decide⟩)
    ∧ (stripe_webhook (ConstructEventResult.ok
        (StripeEvent.invoice_payment_failed "sub_1")) 5 c5w_subs).2.find?
          (fun s => s.stripe_subscription_id == some "sub_1")
      = some { c5w_subs.get ⟨0, by decide⟩ with
               status := SubscriptionStatus.PAST_DUE }
    ∧ (stripe_webhook (ConstructEventResult.ok
        (StripeEvent.invoice_payment_succeeded "sub_1" 2592000 5184000)) 6
        (stripe_webhook (ConstructEventResult.ok
          (StripeEvent.invoice_payment_failed "sub_1")) 5 c5w_subs).2).2.find?
          (fun s => s.stripe_subscription_id == some "sub_1")
      = some { c5w_subs.get ⟨0, by decide⟩ with
          status := SubscriptionStatus.ACTIVE,
          current_period_start := some 2592000,
          current_period_end := some 5184000 } := by
  have h := c5_invoice_failed_then_succeeded "sub_1" 2592000 5184000 5 6
    c5w_subs (c5w_subs.get ⟨0, by decide⟩) rfl
  exact ⟨rfl, h.2.1, h.2.2.2⟩

/-- C10: when no subscription row matches an incoming billing event —
a checkout_completed whose metadata user has no subscription row, or
an invoice event whose external subscription id matches no row — the
webhook handler returns success and leaves the stored state exactly
unchanged. -/
theorem c10_unmatched_events_are_noops (uid : Nat)
    (plan : SubscriptionPlan) (sid : String) (ps pe now : Int)
    (subs : List Subscription)
    (hu : subs.find? (fun s => s.user_id == uid) = none)
    (hs : subs.find? (fun s => s.stripe_subscription_id == some sid)
        = none) :
    stripe_webhook (ConstructEventResult.ok
        (StripeEvent.checkout_completed uid plan sid)) now subs
      = (.ok "success", subs)
    ∧ stripe_webhook (ConstructEventResult.ok
        (StripeEvent.invoice_payment_succeeded sid ps pe)) now subs
      = (.ok "success", subs)
    ∧ stripe_webhook (ConstructEventResult.ok
        (StripeEvent.invoice_payment_failed sid)) now subs
      = (.ok "success", subs) := by
  refine ⟨?_, ?_, ?_⟩
  · simp only [stripe_webhook, handle_successful_payment, hu]
  · simp only [stripe_webhook, handle_successful_payment_renewal, hs]
  · simp only [stripe_webhook, handle_failed_payment, hs]

theorem c10_unmatched_events_are_noops_witness :
    c5w_subs.find? (fun s => s.user_id == 2) = none
    ∧ c5w_subs.find?
        (fun s => s.stripe_subscription_id == some "sub_404") = none
    ∧ stripe_webhook (ConstructEventResult.ok
        (StripeEvent.checkout_completed 2 SubscriptionPlan.BASIC "sub_404"))
        7 c5w_subs
      = (.ok "success", c5w_subs)
    ∧ stripe_webhook (ConstructEventResult.ok
        (StripeEvent.invoice_payment_failed "sub_404")) 7 c5w_subs
      = (.ok "success", c5w_subs) := by
  have h := c10_unmatched_events_are_noops 2 SubscriptionPlan.BASIC
    "sub_404" 0 0 7 c5w_subs rfl rfl
  exact ⟨rfl, rfl, h.1, h.2.2⟩

/-- C3: issuing an API key fails with the quota error (400) when the
user's active-key count already equals the plan limit (free=1,
basic=3, premium=10, enterprise=50) and succeeds when the count is
below the limit, appending one new active row holding the key's hash;
revoking an active key owned by the user succeeds and decrements the
active-key count by exactly one. -/
theorem c3_api_key_quota (sha256hex : String → String)
    (key_data : APIKeyCreate) (token : String) (new_id uid : Nat)
    (subs : List Subscription) (keys : List APIKey)
    (p : SubscriptionPlan) (hp : planOf uid subs = p) :
    (activeKeyCount uid keys = max_keys p →
      create_api_key sha256hex key_data token new_id uid subs keys
        = .error (.BadRequest
            ("Maximum API keys reached for " ++ p.value ++ " plan")))
    ∧ (activeKeyCount uid keys < max_keys p →
      create_api_key sha256hex key_data token new_id uid subs keys
        = .ok ({ id := new_id, name := key_data.name,
                 api_key := "sk_" ++ token,
                 key_preview := ("sk_" ++ token).take 8 ++ "..." },
               keys ++ [{ id := new_id, name := key_data.name,
                          key_hash := sha256hex ("sk_" ++ token),
                          user_id := uid,
                          project_id := key_data.project_id,
                          is_active := true }]))
    ∧ (∀ kid k,
        keys.find? (fun a => a.id == kid && a.user_id == uid) = some k →
        k.is_active = true →
        ∃ keys', delete_api_key kid uid keys
            = .ok ("API key deleted successfully", keys')
          ∧ activeKeyCount uid keys' + 1 = activeKeyCount uid keys) := by
  refine ⟨?_, ?_, ?_⟩
  · intro heq
    simp only [create_api_key, hp]
    rw [if_pos (by omega)]
  · intro hlt
    simp only [create_api_key, hp]
    rw [if_neg (by omega)]
  · intro kid k hfk hact
    refine ⟨_, ?_, activeKeyCount_updateFirst_deactivate uid kid keys k
      hfk hact⟩
    simp only [delete_api_key, hfk]

/-- Keys on file for the C3 witness: user 1 already holds one active
key, the FREE-plan limit. -/
def c3w_keys : List APIKey :=
  [{ id := 1, name := "k", key_hash := "HASH", user_id := 1,
     project_id := none, is_active := true }]

theorem c3_api_key_quota_witness :
    planOf 1 c1_db0 = SubscriptionPlan.FREE
    ∧ create_api_key (fun s => s ++ "#") { name := "k2", project_id := none }
        "tok" 2 1 c1_db0 c3w_keys
      = .error (.BadRequest "Maximum API keys reached for free plan")
    ∧ (∃ keys', delete_api_key 1 1 c3w_keys
          = .ok ("API key deleted successfully", keys')
        ∧ activeKeyCount 1 keys' + 1 = activeKeyCount 1 c3w_keys) := by
  have h := c3_api_key_quota (fun s => s ++ "#")
    { name := "k2", project_id := none } "tok" 2 1 c1_db0 c3w_keys
    SubscriptionPlan.FREE rfl
  exact ⟨rfl, h.1 (by decide),
    h.2.2 1 (c3w_keys.get ⟨0, by decide⟩) rfl (by decide)⟩

/-- C7: creating a key returns the plaintext (prefixed `sk_` key) in
the creation response and persists a row holding only its hash; every
later lookup of the user's keys exposes only the hash-derived preview
(first 8 characters of the stored hash plus "..."), the list-response
schema having no plaintext field; and the stored state after creation
is a function of the key's hash alone — two plaintexts with the same
hash produce identical stored states — so the plaintext is not
recoverable from any stored state. -/
theorem c7_plaintext_shown_once_only_hash_stored
    (sha256hex : String → String) (key_data : APIKeyCreate)
    (t1 t2 : String) (new_id uid : Nat) (subs : List Subscription)
    (keys : List APIKey)
    (hh : sha256hex ("sk_" ++ t1) = sha256hex ("sk_" ++ t2)) :
    (∀ r st,
      create_api_key sha256hex key_data t1 new_id uid subs keys
          = .ok (r, st) →
        r.api_key = "sk_" ++ t1
        ∧ st = keys ++ [{ id := new_id, name := key_data.name,
                          key_hash := sha256hex ("sk_" ++ t1),
                          user_id := uid,
                          project_id := key_data.project_id,
                          is_active := true }])
    ∧ (∀ ks : List APIKey, ∀ it ∈ get_user_api_keys uid ks,
        ∃ k, k ∈ ks ∧ k.user_id = uid
          ∧ it.key_preview = k.key_hash.take 8 ++ "...")
    ∧ (create_api_key sha256hex key_data t1 new_id uid subs keys).map
          (fun q => q.2)
      = (create_api_key sha256hex key_data t2 new_id uid subs keys).map
          (fun q => q.2) := by
  refine ⟨?_, ?_, ?_⟩
  · intro r st hok
    by_cases hc :
        activeKeyCount uid keys ≥ max_keys (planOf uid subs)
    · simp only [create_api_key, if_pos hc] at hok
      exact absurd hok (by simp)
    · simp only [create_api_key, if_neg hc] at hok
      injection hok with hok
      obtain ⟨hr, hs⟩ := Prod.mk.injEq .. ▸ hok
      exact ⟨by rw [← hr], hs.symm⟩
  · intro ks it hit
    simp only [get_user_api_keys, List.mem_map] at hit
    obtain ⟨k, hk, hik⟩ := hit
    rw [List.mem_filter] at hk
    exact ⟨k, hk.1, by simpa using hk.2, by rw [← hik]⟩
  · by_cases hc :
        activeKeyCount uid keys ≥ max_keys (planOf uid subs)
    · simp only [create_api_key, if_pos hc, Except.map]
    · simp only [create_api_key, if_neg hc, Except.map, hh]

theorem c7_plaintext_shown_once_only_hash_stored_witness :
    (fun _ : String => "h0h1h2h3h4") ("sk_" ++ "aaaa")
      = (fun _ : String => "h0h1h2h3h4") ("sk_" ++ "bbbb")
    ∧ (create_api_key (fun _ => "h0h1h2h3h4")
          { name := "k", project_id := none } "aaaa" 1 1 [] []).map
            (fun q => q.2)
      = (create_api_key (fun _ => "h0h1h2h3h4")
          { name := "k", project_id := none } "bbbb" 1 1 [] []).map
            (fun q => q.2) :=
  ⟨rfl, (c7_plaintext_shown_once_only_hash_stored (fun _ => "h0h1h2h3h4")
    { name := "k", project_id := none } "aaaa" "bbbb" 1 1 [] [] rfl).2.2⟩

theorem usageCountMonth_eq_window (uid m y : Nat) (records : List Usage) :
    usageCountMonth uid m y records
      = spec_countInWindow uid { year := y, month := m, sub := 0 }
          { year := y, month := m + 1, sub := 0 } records := by
  unfold usageCountMonth spec_countInWindow
  congr 1
  apply List.filter_congr
  intro r _
  rw [Bool.eq_iff_iff]
  simp only [Bool.and_eq_true, beq_iff_eq, DateTime.leb, DateTime.ltb,
    decide_eq_true_eq]
  omega

/-- Subscription table for the C8 inputs: user 1 ACTIVE on BASIC. -/
def c8_subs : List Subscription :=
  [{ user_id := 1, plan := SubscriptionPlan.BASIC,
     status := SubscriptionStatus.ACTIVE, stripe_customer_id := none,
     stripe_subscription_id := none, current_period_start := none,
     current_period_end := none }]

/-- C8's clock: an instant early in a month. -/
def c8_now : DateTime := { year := 2026, month := 10, sub := 5 }

/-- One usage record for user 1 timestamped later in the same month
(after `c8_now`). -/
def c8_records : List Usage :=
  [{ id := 1, user_id := 1, timestamp := { year := 2026, month := 10, sub := 9 } }]

/-- C8 counterexample: the endpoint filters by calendar month and year
only, so a record timestamped after `now` but inside the same month is
counted (current_usage = 1), while the claimed half-open window
[start of month, now) contains no record (count 0). -/
theorem c8_counts_future_same_month_record :
    get_subscription_usage 1 c8_now c8_subs c8_records
      = .ok { current_usage := 1, limit := 1000, unlimited := false,
              plan := SubscriptionPlan.BASIC,
              status := SubscriptionStatus.ACTIVE }
    ∧ spec_countInWindow 1 (monthStart c8_now) c8_now c8_records = 0 :=
  ⟨rfl, rfl⟩

/-- C8 (amended): the current-month usage count returned by the usage
endpoint equals the number of UsageRecords for that user whose
timestamp lies in the whole current calendar month — the half-open
interval [start of the current month, start of the next month) — which
agrees with the claimed [start of month, now) exactly when every
record's timestamp precedes now. -/
theorem c8_usage_counts_whole_calendar_month (uid : Nat) (now : DateTime)
    (subs : List Subscription) (records : List Usage) (rep : UsageReport)
    (hok : get_subscription_usage uid now subs records = .ok rep) :
    rep.current_usage
      = spec_countInWindow uid (monthStart now) (nextMonthStart now)
          records := by
  unfold get_subscription_usage at hok
  cases hfind : subs.find? (fun s => s.user_id == uid) with
  | none => rw [hfind] at hok; exact absurd hok (by simp)
  | some sub =>
    rw [hfind] at hok
    injection hok with hok
    have hcu : rep.current_usage
        = usageCountMonth uid now.month now.year records := by
      rw [← hok]
    rw [hcu, usageCountMonth_eq_window]
    rfl

theorem c8_usage_counts_whole_calendar_month_witness :
    get_subscription_usage 1 c8_now c8_subs c8_records
      = .ok { current_usage := 1, limit := 1000, unlimited := false,
              plan := SubscriptionPlan.BASIC,
              status := SubscriptionStatus.ACTIVE }
    ∧ (1 : Nat)
      = spec_countInWindow 1 (monthStart c8_now) (nextMonthStart c8_now)
          c8_records :=
  ⟨rfl, c8_usage_counts_whole_calendar_month 1 c8_now c8_subs c8_records
    { current_usage := 1, limit := 1000, unlimited := false,
      plan := SubscriptionPlan.BASIC,
      status := SubscriptionStatus.ACTIVE } rfl⟩

end Storm
